import Mathlib

/-!
Verification of the proxy-audit process/socket introspection layer and
proxy-classification engine, shallowly embedded from the Rust sources
(`src/scan.rs`, `src/macos/libproc.rs`, `src/proxy/scutil.rs`).

External OS and library calls (libproc syscalls, DNS, the probe HTTP
request, string-to-IP parsing from the standard library, GeoIP lookup)
are modelled as oracle parameters; everything written in the repository
itself is translated directly.
-/

namespace ProxyAudit

/-! ## Basic data model: IP addresses (std::net::IpAddr as used by the code) -/

/-- `std::net::IpAddr`: a V4 address is four octets, a V6 address its 16 bytes. -/
inductive IpAddr where
  | v4 (a b c d : Nat)
  | v6 (bytes : List Nat)
  deriving DecidableEq, Repr

/-- `IpAddr::is_loopback`: 127.0.0.0/8 for V4, `::1` for V6. -/
def IpAddr.is_loopback : IpAddr → Bool
  | .v4 a _ _ _ => a == 127
  | .v6 bs => bs == [0, 0, 0, 0, 0, 0, 0, 0, 0, 0, 0, 0, 0, 0, 0, 1]

/-- `IpAddr::is_unspecified`: 0.0.0.0 for V4, `::` for V6. -/
def IpAddr.is_unspecified : IpAddr → Bool
  | .v4 a b c d => a == 0 && b == 0 && c == 0 && d == 0
  | .v6 bs => bs == List.replicate 16 0

/-- Rendering of an address, modelling the standard library `Display`
implementation as used to build `format!("{}:{}", ip, port)` cache keys.
(The V6 rendering does not reproduce std's zero-run compression; only V4
keys are exercised by the classifier theorems.) -/
def ipToString : IpAddr → String
  | .v4 a b c d =>
      toString a ++ "." ++ toString b ++ "." ++ toString c ++ "." ++ toString d
  | .v6 bs => String.intercalate ":" (bs.map toString)

/-! ## TCP state (src/macos/libproc.rs) -/

/-- `TcpState` from `libproc.rs`, standard states plus an `Unknown(raw)` fallback. -/
inductive TcpState where
  | closed
  | listen
  | synSent
  | synReceived
  | established
  | closeWait
  | finWait1
  | closing
  | lastAck
  | finWait2
  | timeWait
  | unknown (raw : Int)
  deriving DecidableEq, Repr

/-- `TcpState::from_raw`: BSD `TCPS_*` constants, anything else is `Unknown`. -/
def TcpState.from_raw (state : Int) : TcpState :=
  if state = 0 then .closed
  else if state = 1 then .listen
  else if state = 2 then .synSent
  else if state = 3 then .synReceived
  else if state = 4 then .established
  else if state = 5 then .closeWait
  else if state = 6 then .finWait1
  else if state = 7 then .closing
  else if state = 8 then .lastAck
  else if state = 9 then .finWait2
  else if state = 10 then .timeWait
  else .unknown state

/-- `TcpState::is_listening`. -/
def TcpState.is_listening : TcpState → Bool
  | .listen => true
  | _ => false

/-- `SocketProtocol` from `libproc.rs`. -/
inductive SocketProtocol where
  | tcp
  | udp
  deriving DecidableEq, Repr

/-- `SocketInfo` from `libproc.rs`: one decoded socket endpoint. -/
structure SocketInfo where
  local_addr : IpAddr
  local_port : Nat
  remote_addr : IpAddr
  remote_port : Nat
  protocol : SocketProtocol
  tcp_state : Option TcpState
  deriving DecidableEq, Repr

/-- The LISTEN check used in `scan.rs` loops:
`if let Some(state) = &sock.tcp_state { if state.is_listening() { ... } }`. -/
def sockIsListen (s : SocketInfo) : Bool :=
  match s.tcp_state with
  | some st => st.is_listening
  | none => false

/-! ## list_all_pids (src/macos/libproc.rs)

`proc_listpids` is modelled as an oracle: given the current buffer capacity
in elements, it yields the OS return value expressed as an element count
(`ret / sizeof(i32)`; negative means failure) together with the buffer
contents after the call. The unbounded `loop` is embedded with explicit
fuel; `none` means the fuel ran out, i.e. the loop has not terminated
within that many iterations. -/

/-- Result of one modelled `proc_listpids` call: the return value in
elements (negative encodes the raw error return) and the buffer contents. -/
structure PidsReply where
  ret : Int
  buffer : List Int

/-- `INITIAL_PID_COUNT` from `libproc.rs`. -/
def INITIAL_PID_COUNT : Nat := 1024

/-- The retry `loop` inside `list_all_pids`, one fuel unit per iteration:
bail on a negative return; if the returned count fills the capacity, double
the buffer and retry; otherwise truncate to the count and retain pids > 0. -/
def listAllPidsLoop (os : Nat → PidsReply) : Nat → Nat → Option (Except Int (List Int))
  | 0, _ => none
  | fuel + 1, capacity =>
    let reply := os capacity
    if reply.ret < 0 then
      some (.error reply.ret)
    else
      let count := reply.ret.toNat
      if capacity ≤ count then
        listAllPidsLoop os fuel (capacity * 2)
      else
        some (.ok (((reply.buffer.take count).filter (fun pid => 0 < pid))))

/-- `list_all_pids` from `libproc.rs`, starting from `INITIAL_PID_COUNT`. -/
def list_all_pids (os : Nat → PidsReply) (fuel : Nat) : Option (Except Int (List Int)) :=
  listAllPidsLoop os fuel INITIAL_PID_COUNT

/-! ## Byte-order handling and socket decoding (src/macos/libproc.rs)

The host byte order is a parameter `le : Bool` (`true` = little-endian).
An `in_addr.s_addr` is the `u32` value the host reads from the four
in-memory bytes; `u32::to_ne_bytes` recovers those bytes. A port field
holds its two in-memory bytes in network (big-endian) order; the host
reads it as a native `u16`, and `u16::from_be` converts that to host
order. -/

/-- The `u32` a host with endianness `le` reads from in-memory bytes
`b0 b1 b2 b3` (lowest address first). -/
def u32OfNeBytes (le : Bool) (b0 b1 b2 b3 : Nat) : Nat :=
  if le then b0 + 256 * (b1 + 256 * (b2 + 256 * b3))
  else b3 + 256 * (b2 + 256 * (b1 + 256 * b0))

/-- `u32::to_ne_bytes`: the four in-memory bytes of `x` on a host with
endianness `le`, lowest address first. -/
def u32ToNeBytes (le : Bool) (x : Nat) : Nat × Nat × Nat × Nat :=
  if le then (x % 256, x / 256 % 256, x / 65536 % 256, x / 16777216 % 256)
  else (x / 16777216 % 256, x / 65536 % 256, x / 256 % 256, x % 256)

/-- The `u16` a host with endianness `le` reads from in-memory bytes
`b0 b1` (lowest address first). -/
def u16OfNeBytes (le : Bool) (b0 b1 : Nat) : Nat :=
  if le then b0 + 256 * b1 else 256 * b0 + b1

/-- `u16::swap_bytes`. -/
def swapBytes16 (x : Nat) : Nat :=
  x % 256 * 256 + x / 256 % 256

/-- `u16::from_be`: on a little-endian host this is `swap_bytes`, on a
big-endian host the identity. -/
def fromBe16 (le : Bool) (x : Nat) : Nat :=
  if le then swapBytes16 x else x

/-- `ipv4_to_addr` from `libproc.rs`: the address octets are the
*native-order* bytes of `s_addr` (`to_ne_bytes`), deliberately not a
big-endian reinterpretation. -/
def ipv4_to_addr (le : Bool) (sAddr : Nat) : IpAddr :=
  let (o0, o1, o2, o3) := u32ToNeBytes le sAddr
  .v4 o0 o1 o2 o3

/-- `ipv6_to_addr` from `libproc.rs`: the 16 raw bytes. -/
def ipv6_to_addr (bytes : List Nat) : IpAddr :=
  .v6 bytes

/-- The `in_sockinfo` fields read by the decoder. The `insi_laddr` /
`insi_faddr` unions are modelled with both arms present: the 4-byte arm
as the host-read `u32` value, the 16-byte arm as raw bytes; the code
reads only the arm selected by `insi_vflag`. Ports are the host-read
native `u16` values of the network-order fields. -/
structure in_sockinfo where
  insi_vflag : Nat
  insi_laddr_46 : Nat
  insi_faddr_46 : Nat
  insi_laddr_6 : List Nat
  insi_faddr_6 : List Nat
  insi_lport : Nat
  insi_fport : Nat
  deriving DecidableEq, Repr

/-- `parse_in_sockinfo` from `libproc.rs`: dispatch on the version flag
(`INI_IPV4 = 0x1`, `INI_IPV6 = 0x2`), keep address bytes in native order,
swap ports from network to host order. -/
def parse_in_sockinfo (le : Bool) (info : in_sockinfo) :
    Option (IpAddr × Nat × IpAddr × Nat) :=
  if info.insi_vflag &&& 0x1 ≠ 0 then
    let localA := ipv4_to_addr le info.insi_laddr_46
    let remote := ipv4_to_addr le info.insi_faddr_46
    let local_port := fromBe16 le info.insi_lport
    let remote_port := fromBe16 le info.insi_fport
    some (localA, local_port, remote, remote_port)
  else if info.insi_vflag &&& 0x2 ≠ 0 then
    let localA := ipv6_to_addr info.insi_laddr_6
    let remote := ipv6_to_addr info.insi_faddr_6
    let local_port := fromBe16 le info.insi_lport
    let remote_port := fromBe16 le info.insi_fport
    some (localA, local_port, remote, remote_port)
  else
    none

/-- `tcp_sockinfo`: the TCP arm of the `soi_proto` union. -/
structure tcp_sockinfo where
  tcpsi_ini : in_sockinfo
  tcpsi_state : Int
  deriving DecidableEq, Repr

/-- The `proc_socketinfo` fields read by the decoder; the `soi_proto`
tagged union is modelled with both arms present, the code reading only
the arm matching the `soi_kind` discriminant. -/
structure proc_socketinfo where
  soi_kind : Nat
  soi_protocol : Int
  pri_tcp : tcp_sockinfo
  pri_in : in_sockinfo
  deriving DecidableEq, Repr

/-- `socket_fdinfo`: wrapper holding `psi`. -/
structure socket_fdinfo where
  psi : proc_socketinfo
  deriving DecidableEq, Repr

/-- `SOCKINFO_IN` (macOS `sys/proc_info.h`). -/
def SOCKINFO_IN : Nat := 1

/-- `SOCKINFO_TCP` (macOS `sys/proc_info.h`). -/
def SOCKINFO_TCP : Nat := 2

/-- `IPPROTO_UDP`. -/
def IPPROTO_UDP : Int := 17

/-- `parse_socket_info` from `libproc.rs`: read the `soi_kind`
discriminant first; a TCP-kind entry yields a TCP record, a generic
inet-kind entry yields a UDP record only when `soi_protocol` is UDP and
nothing otherwise, every other kind is skipped. -/
def parse_socket_info (le : Bool) (sock_info : socket_fdinfo) : Option SocketInfo :=
  let psi := sock_info.psi
  if psi.soi_kind = SOCKINFO_TCP then
    let tcp_info := psi.pri_tcp
    let in_info := tcp_info.tcpsi_ini
    match parse_in_sockinfo le in_info with
    | none => none
    | some (local_addr, local_port, remote_addr, remote_port) =>
      some { local_addr, local_port, remote_addr, remote_port,
             protocol := .tcp,
             tcp_state := some (TcpState.from_raw tcp_info.tcpsi_state) }
  else if psi.soi_kind = SOCKINFO_IN then
    let in_info := psi.pri_in
    if psi.soi_protocol ≠ IPPROTO_UDP then
      none
    else
      match parse_in_sockinfo le in_info with
      | none => none
      | some (local_addr, local_port, remote_addr, remote_port) =>
        some { local_addr, local_port, remote_addr, remote_port,
               protocol := .udp,
               tcp_state := none }
  else
    none

/-! ## System proxy configuration (src/proxy/scutil.rs) -/

/-- `ProxyServer` from `scutil.rs`; `resolved_ips` is filled by DNS at
config-read time and is not consulted by the classifier. -/
structure ProxyServer where
  host : String
  port : Nat
  resolved_ips : List IpAddr
  deriving DecidableEq, Repr

/-- `SystemProxy` from `scutil.rs`. -/
structure SystemProxy where
  http : Option ProxyServer := none
  https : Option ProxyServer := none
  socks : Option ProxyServer := none
  pac_url : Option String := none
  deriving DecidableEq, Repr

/-! ## GeoIP collaborator (src/geo/mmdb.rs, interface only) -/

/-- `GeoResult` from `mmdb.rs`. -/
structure GeoResult where
  iso_code : String
  name : String
  deriving DecidableEq, Repr

/-- The GeoIP database, reduced to its `lookup` interface (the mmdb file
reader itself is an external collaborator). -/
structure GeoDb where
  lookup : IpAddr → Option GeoResult

/-! ## Proxy mode and scan results (src/scan.rs) -/

/-- `ProxyMode` from `scan.rs`: exactly the four variants declared there. -/
inductive ProxyMode where
  | systemProxy
  | localProxy
  | vpnLikely
  | direct
  deriving DecidableEq, Repr

/-- `ProcessResult` from `scan.rs`. -/
structure ProcessResult where
  pid : Int
  name : String
  path : Option String
  mode : ProxyMode
  proxy : Option String
  country : Option String
  detail : Option String
  conns_count : Nat
  deriving DecidableEq, Repr

/-! ## Exit-IP cache (src/scan.rs)

`HashMap<String, Option<IpAddr>>` behind `Arc<Mutex<...>>`, modelled as an
association list threaded explicitly; `insert` prepends, and `get` takes
the first (most recent) binding, matching `HashMap::insert` overwrite
semantics observationally. -/

/-- The exit-IP cache: endpoint key → optional discovered exit IP. -/
def Cache := List (String × Option IpAddr)

/-- `HashMap::get` on the cache. -/
def cacheGet (key : String) : Cache → Option (Option IpAddr)
  | [] => none
  | (k, v) :: rest => if k = key then some v else cacheGet key rest

/-- `HashMap::insert` on the cache (shadowing insert). -/
def cacheInsert (key : String) (v : Option IpAddr) (c : Cache) : Cache :=
  (key, v) :: c

/-- `format!("{}:{}", ip, port)`: the canonical endpoint key / label. -/
def endpointString (ip : IpAddr) (port : Nat) : String :=
  ipToString ip ++ ":" ++ toString port

/-! ## Scan context and external oracles -/

/-- `ScanContext` from `scan.rs`, without the cache (threaded explicitly)
and with the listen-port `HashMap` as a function map. -/
structure ScanContext where
  system_proxy : SystemProxy
  default_iface : String
  is_vpn : Bool
  listen_ports : Nat → Option (Int × String)
  geo_db : Option GeoDb
  probe_exit : Bool
  only_routed : Bool
  target_pid : Option Int
  debug : Bool

/-- External calls made during classification: the outbound exit-IP probe
(`probe_exit_ip`, a network call) and `str::parse::<IpAddr>` from the
standard library. -/
structure Externals where
  probe : IpAddr → Nat → Option IpAddr
  parseIp : String → Option IpAddr

/-- Per-process OS oracles used by the orchestrator:
`get_process_name`, `get_process_path` (either may fail), and
`list_process_sockets` (`none` models an `Err` return). -/
structure ScanOracles where
  getName : Int → Option String
  getPath : Int → Option String
  listSockets : Int → Option (List SocketInfo)

/-! ## Classifier helpers (src/scan.rs) -/

/-- `check_port_match` from `scan.rs`: direct match, then a defensive
byte-swapped match. -/
def check_port_match (port : Nat) (targets : List Nat) : Bool :=
  targets.contains port || targets.contains (swapBytes16 port)

/-- `is_tun_virtual_ip` from `scan.rs`: the 198.18.0.0/15 block
(first octet 198, second 18 or 19), IPv4 only. -/
def is_tun_virtual_ip (ip : IpAddr) : Bool :=
  match ip with
  | .v4 o0 o1 _ _ => o0 == 198 && (o1 == 18 || o1 == 19)
  | .v6 _ => false

/-- The configured system-proxy port list built at the top of
`determine_proxy_mode` (HTTP, HTTPS, SOCKS, present entries only). -/
def proxyPortsOf (ctx : ScanContext) : List Nat :=
  [ctx.system_proxy.http.map (fun p => p.port),
   ctx.system_proxy.https.map (fun p => p.port),
   ctx.system_proxy.socks.map (fun p => p.port)].filterMap id

/-- First-`some` choice on options (`if x.is_none() { x = Some(v) }`). -/
def orO {α : Type} : Option α → Option α → Option α
  | some v, _ => some v
  | none, b => b

/-- The four mutable locals of the `determine_proxy_mode` scanning loop. -/
structure BucketState where
  has_remote_conn : Bool := false
  system_proxy_conn : Option (IpAddr × Nat) := none
  local_proxy_conn : Option (IpAddr × Nat) := none
  tun_proxy_conn : Option (IpAddr × Nat) := none
  deriving DecidableEq, Repr

/-- One iteration of the `determine_proxy_mode` loop body: skip LISTEN and
unspecified-remote sockets, then try the system-proxy, TUN and local-proxy
checks in order (each keeping only its first hit), else flag a remote
connection. -/
def bucketStep (proxy_ports : List Nat) (st : BucketState) (sock : SocketInfo) :
    BucketState :=
  let conn := (sock.remote_addr, sock.remote_port)
  if sockIsListen sock then st
  else if sock.remote_addr.is_unspecified then st
  else if sock.remote_addr.is_loopback && check_port_match sock.remote_port proxy_ports then
    { st with system_proxy_conn := orO st.system_proxy_conn (some conn) }
  else if is_tun_virtual_ip sock.remote_addr || is_tun_virtual_ip sock.local_addr then
    { st with tun_proxy_conn := orO st.tun_proxy_conn (some conn) }
  else if sock.remote_addr.is_loopback then
    { st with local_proxy_conn := orO st.local_proxy_conn (some conn) }
  else
    { st with has_remote_conn := true }

/-- The full `for sock in sockets` loop of `determine_proxy_mode`. -/
def bucketLoop (proxy_ports : List Nat) (sockets : List SocketInfo) : BucketState :=
  sockets.foldl (bucketStep proxy_ports) {}

/-- The cache-check-then-probe step duplicated in the three probing sites
of `determine_proxy_mode`: on a hit return the stored value with the cache
untouched, on a miss invoke the probe and write its result (even an absent
one) under the key. -/
def resolveExitIpCached (probe : IpAddr → Nat → Option IpAddr) (cache : Cache)
    (ip : IpAddr) (port : Nat) : Option IpAddr × Cache :=
  let cache_key := endpointString ip port
  match cacheGet cache_key cache with
  | some cached => (cached, cache)
  | none =>
    let result := probe ip port
    (result, cacheInsert cache_key result cache)

/-- The country-labelling step shared by the three probing sites: GeoIP
lookup when available, else a literal `exit_ip=` label; nothing when no
exit IP was found. -/
def countryFor (geo_db : Option GeoDb) (exit_ip : Option IpAddr) : Option String :=
  match exit_ip with
  | none => none
  | some ip =>
    let viaGeo : Option String :=
      match geo_db with
      | some geo => (geo.lookup ip).map (fun r => r.iso_code ++ " " ++ r.name)
      | none => none
    match viaGeo with
    | some s => some s
    | none => some ("exit_ip=" ++ ipToString ip)

/-- The `format!("proxy_pid={} proxy_name=\x7b:?\x7d", ...)`-style detail
string attached when the listen-port map identifies the proxy process. -/
def detailString (proxy_pid : Int) (proxy_name : String) : String :=
  "proxy_pid=" ++ toString proxy_pid ++ " proxy_name=\"" ++ proxy_name ++ "\""

/-- The classifier's output 4-tuple
`(ProxyMode, Option<String>, Option<String>, Option<String>)`. -/
structure ClassifyOutput where
  mode : ProxyMode
  proxy : Option String
  detail : Option String
  country : Option String
  deriving DecidableEq, Repr

/-- `determine_proxy_mode` from `scan.rs`: run the bucketing loop, then
resolve in priority order — system-proxy bucket, TUN bucket (returned as
`VpnLikely` with a `TUN:` label), local-proxy bucket, route-interface
`VpnLikely`, `Direct`. Probing for the system/local buckets happens only
inside a successful listen-port lookup; the TUN bucket probes through a
configured system proxy (SOCKS, then HTTP, then HTTPS) whose host parses
as an IP. The threaded cache is returned updated. -/
def determine_proxy_mode (ctx : ScanContext) (ext : Externals) (cache : Cache)
    (sockets : List SocketInfo) : ClassifyOutput × Cache :=
  let proxy_ports := proxyPortsOf ctx
  let st := bucketLoop proxy_ports sockets
  match st.system_proxy_conn with
  | some (ip, port) =>
    let dcc : Option String × Option String × Cache :=
      match ctx.listen_ports port with
      | some (proxy_pid, proxy_name) =>
        if ctx.probe_exit then
          let ec := resolveExitIpCached ext.probe cache ip port
          (some (detailString proxy_pid proxy_name), countryFor ctx.geo_db ec.1, ec.2)
        else
          (some (detailString proxy_pid proxy_name), none, cache)
      | none => (none, none, cache)
    ({ mode := .systemProxy, proxy := some (endpointString ip port),
       detail := dcc.1, country := dcc.2.1 }, dcc.2.2)
  | none =>
    match st.tun_proxy_conn with
    | some (ip, port) =>
      let cc : Option String × Cache :=
        if ctx.probe_exit then
          match orO ctx.system_proxy.socks
                  (orO ctx.system_proxy.http ctx.system_proxy.https) with
          | some proxy =>
            match ext.parseIp proxy.host with
            | some proxy_ip =>
              let ec := resolveExitIpCached ext.probe cache proxy_ip proxy.port
              (countryFor ctx.geo_db ec.1, ec.2)
            | none => (none, cache)
          | none => (none, cache)
        else
          (none, cache)
      ({ mode := .vpnLikely, proxy := some ("TUN:" ++ endpointString ip port),
         detail := some "tun_mode=true", country := cc.1 }, cc.2)
    | none =>
      match st.local_proxy_conn with
      | some (ip, port) =>
        let dcc : Option String × Option String × Cache :=
          match ctx.listen_ports port with
          | some (proxy_pid, proxy_name) =>
            if ctx.probe_exit then
              let ec := resolveExitIpCached ext.probe cache ip port
              (some (detailString proxy_pid proxy_name), countryFor ctx.geo_db ec.1, ec.2)
            else
              (some (detailString proxy_pid proxy_name), none, cache)
          | none => (none, none, cache)
        ({ mode := .localProxy, proxy := some (endpointString ip port),
           detail := dcc.1, country := dcc.2.1 }, dcc.2.2)
      | none =>
        if ctx.is_vpn && st.has_remote_conn then
          ({ mode := .vpnLikely, proxy := some ctx.default_iface,
             detail := none, country := none }, cache)
        else
          ({ mode := .direct, proxy := none, detail := none, country := none }, cache)

/-! ## Listen-port map and scan orchestrator (src/scan.rs) -/

/-- Function-map update modelling `HashMap::insert` on the listen-port map. -/
def mapInsert (port : Nat) (v : Int × String) (m : Nat → Option (Int × String)) :
    Nat → Option (Int × String) :=
  fun p => if p = port then some v else m p

/-- The inner socket loop of `build_listen_ports`: record loopback-bound
TCP LISTEN local ports for one process. -/
def listenInsertOne (pid : Int) (name : String) (m : Nat → Option (Int × String))
    (sockets : List SocketInfo) : Nat → Option (Int × String) :=
  sockets.foldl
    (fun m sock =>
      if sockIsListen sock && sock.local_addr.is_loopback then
        mapInsert sock.local_port (pid, name) m
      else m)
    m

/-- One pid of the `build_listen_ports` sweep: name defaulting to
"unknown", skipping a process whose socket listing fails. -/
def listenSweepStep (os : ScanOracles) (m : Nat → Option (Int × String))
    (pid : Int) : Nat → Option (Int × String) :=
  let name := (os.getName pid).getD "unknown"
  match os.listSockets pid with
  | some sockets => listenInsertOne pid name m sockets
  | none => m

/-- `ScanContext::build_listen_ports`: sweep the pid list in order. -/
def build_listen_ports (os : ScanOracles) (pids : List Int) :
    Nat → Option (Int × String) :=
  pids.foldl (listenSweepStep os) (fun _ => none)

/-- The per-pid closure of the parallel `filter_map` in
`scan_all_processes`: skip non-target pids, skip pids whose name cannot be
resolved, emit a `Direct` zero-connection result (unless only-routed) for
processes without sockets, otherwise classify and apply the only-routed
filter. Returns the optional result together with the updated cache. -/
def scanProcess (ctx : ScanContext) (ext : Externals) (os : ScanOracles)
    (cache : Cache) (pid : Int) : Option ProcessResult × Cache :=
  if (match ctx.target_pid with | some target => pid != target | none => false) then
    (none, cache)
  else
    match os.getName pid with
    | none => (none, cache)
    | some name =>
      let path := os.getPath pid
      let sockets := (os.listSockets pid).getD []
      if sockets.isEmpty then
        if ¬ ctx.only_routed then
          (some { pid, name, path, mode := .direct, proxy := none,
                  country := none, detail := none, conns_count := 0 }, cache)
        else
          (none, cache)
      else
        let oc := determine_proxy_mode ctx ext cache sockets
        if ctx.only_routed && oc.1.mode = .direct then
          (none, oc.2)
        else
          (some { pid, name, path, mode := oc.1.mode, proxy := oc.1.proxy,
                  country := oc.1.country, detail := oc.1.detail,
                  conns_count := sockets.length }, oc.2)

/-- Stable insertion of a result into a pid-sorted list. -/
def insertByPid (r : ProcessResult) : List ProcessResult → List ProcessResult
  | [] => [r]
  | h :: t => if h.pid ≤ r.pid then h :: insertByPid r t else r :: h :: t

/-- `results.sort_by_key(|r| r.pid)`. -/
def sortByPid (l : List ProcessResult) : List ProcessResult :=
  l.foldr insertByPid []

/-- One step of the (linearized) parallel classification pass: run
`scanProcess` against the threaded cache and append any emitted result. -/
def scanStep (ctx : ScanContext) (ext : Externals) (os : ScanOracles)
    (acc : List ProcessResult × Cache) (pid : Int) : List ProcessResult × Cache :=
  let rc := scanProcess ctx ext os acc.2 pid
  match rc.1 with
  | some r => (acc.1 ++ [r], rc.2)
  | none => (acc.1, rc.2)

/-- The classification pass of `scan_all_processes` over an already-built
context: traverse the pid list threading the shared cache (one
linearization of the rayon fan-out), collect the emitted results, and
sort them by pid. -/
def scanPass (ctx : ScanContext) (ext : Externals) (os : ScanOracles)
    (pids : List Int) : List ProcessResult :=
  sortByPid (pids.foldl (scanStep ctx ext os) ([], [])).1

/-- `scan_all_processes` from `scan.rs`, with the pid enumeration already
performed: build the listen-port map from a full sweep, then run the
classification pass. -/
def scan_all_processes (ctx : ScanContext) (ext : Externals) (os : ScanOracles)
    (pids : List Int) : List ProcessResult :=
  scanPass { ctx with listen_ports := build_listen_ports os pids } ext os pids

/-! ## Spec-side description of the classifier (transcribed from the
specification's words, §4.2, for comparison with the code's loop) -/

/-- Spec predicate (a): remote is loopback and its port matches a
configured system-proxy port (with the documented defensive
byte-swap double-check). -/
def specPredSystem (proxy_ports : List Nat) (s : SocketInfo) : Bool :=
  s.remote_addr.is_loopback && check_port_match s.remote_port proxy_ports

/-- Spec predicate (b): remote or local address falls in the recognized
TUN virtual range. -/
def specPredTun (s : SocketInfo) : Bool :=
  is_tun_virtual_ip s.remote_addr || is_tun_virtual_ip s.local_addr

/-- Spec notion of a surviving connection: LISTEN-state and
unspecified-remote connections are excluded. -/
def survivors (sockets : List SocketInfo) : List SocketInfo :=
  sockets.filter (fun s => !sockIsListen s && !s.remote_addr.is_unspecified)

/-- The remote endpoint recorded for a bucketed connection. -/
def connOf (s : SocketInfo) : IpAddr × Nat :=
  (s.remote_addr, s.remote_port)

/-- Spec description of the single bucketing pass: over the surviving
connections, first-match-wins per connection ((a) system-proxy, then (b)
TUN, then (c) other loopback remote, else the has-remote flag) and
first-occurrence-wins per bucket. -/
def specBuckets (proxy_ports : List Nat) (sockets : List SocketInfo) : BucketState :=
  let surv := survivors sockets
  let notA := surv.filter (fun s => !specPredSystem proxy_ports s)
  let notAB := notA.filter (fun s => !specPredTun s)
  { system_proxy_conn := (surv.find? (specPredSystem proxy_ports)).map connOf,
    tun_proxy_conn := (notA.find? specPredTun).map connOf,
    local_proxy_conn := (notAB.find? (fun s => s.remote_addr.is_loopback)).map connOf,
    has_remote_conn := notAB.any (fun s => !s.remote_addr.is_loopback) }

/-- The five outcomes of the spec's resolution priority. -/
inductive Resolution where
  | systemBucket (ip : IpAddr) (port : Nat)
  | tunBucket (ip : IpAddr) (port : Nat)
  | localBucket (ip : IpAddr) (port : Nat)
  | vpnLikely
  | direct
  deriving DecidableEq, Repr

/-- Spec resolution priority: system-proxy bucket > tun bucket >
local-proxy bucket > (VpnLikely, if the route interface is VPN-style and
has-remote is set) > Direct. -/
def specResolve (is_vpn : Bool) (st : BucketState) : Resolution :=
  match st.system_proxy_conn with
  | some (ip, port) => .systemBucket ip port
  | none =>
    match st.tun_proxy_conn with
    | some (ip, port) => .tunBucket ip port
    | none =>
      match st.local_proxy_conn with
      | some (ip, port) => .localBucket ip port
      | none =>
        if is_vpn && st.has_remote_conn then .vpnLikely else .direct

/-- The `ProxyMode` the code attaches to each resolution outcome (the TUN
bucket is reported as `VpnLikely`). -/
def resolutionMode : Resolution → ProxyMode
  | .systemBucket _ _ => .systemProxy
  | .tunBucket _ _ => .vpnLikely
  | .localBucket _ _ => .localProxy
  | .vpnLikely => .vpnLikely
  | .direct => .direct

/-- The endpoint label the code attaches to each resolution outcome. -/
def resolutionProxyLabel (ctx : ScanContext) : Resolution → Option String
  | .systemBucket ip port => some (endpointString ip port)
  | .tunBucket ip port => some ("TUN:" ++ endpointString ip port)
  | .localBucket ip port => some (endpointString ip port)
  | .vpnLikely => some ctx.default_iface
  | .direct => none

/-! ## Concrete fixtures used by scenario theorems and counterexamples -/

/-- External oracle whose probe always fails and whose IP parser rejects
everything. -/
def extNoop : Externals :=
  { probe := fun _ _ => none, parseIp := fun _ => none }

/-- An established connection to the loopback system-proxy port 7890. -/
def sockSysConn : SocketInfo :=
  { local_addr := .v4 127 0 0 1, local_port := 54001,
    remote_addr := .v4 127 0 0 1, remote_port := 7890,
    protocol := .tcp, tcp_state := some .established }

/-- An established connection whose remote lies in the 198.18.0.0/15 TUN range. -/
def sockTunConn : SocketInfo :=
  { local_addr := .v4 198 18 0 1, local_port := 54002,
    remote_addr := .v4 198 18 0 5, remote_port := 443,
    protocol := .tcp, tcp_state := some .established }

/-- A loopback TCP socket in LISTEN state on 127.0.0.1:8080. -/
def sockListen8080 : SocketInfo :=
  { local_addr := .v4 127 0 0 1, local_port := 8080,
    remote_addr := .v4 0 0 0 0, remote_port := 0,
    protocol := .tcp, tcp_state := some .listen }

/-- A configured HTTP system proxy at 127.0.0.1:7890. -/
def httpProxy7890 : ProxyServer :=
  { host := "127.0.0.1", port := 7890, resolved_ips := [.v4 127 0 0 1] }

/-- Baseline context: HTTP proxy configured on port 7890, non-VPN route,
no listen-port entries, probing and filters off. -/
def ctxBase : ScanContext :=
  { system_proxy := { http := some httpProxy7890 },
    default_iface := "en0", is_vpn := false,
    listen_ports := fun _ => none, geo_db := none,
    probe_exit := false, only_routed := false, target_pid := none, debug := false }

/-- Baseline context with probing enabled and no listen-port entries. -/
def ctxProbeNoListen : ScanContext :=
  { ctxBase with probe_exit := true }

/-- Baseline context with probing enabled and port 7890 attributed to
(pid 50, "clash") in the listen-port map. -/
def ctxProbeListen : ScanContext :=
  { ctxBase with
    probe_exit := true,
    listen_ports := fun port => if port = 7890 then some (50, "clash") else none }

/-- A cache already holding an exit IP for the 127.0.0.1:7890 endpoint. -/
def cachePreloaded : Cache :=
  [("127.0.0.1:7890", some (.v4 9 9 9 9))]

/-- Oracles for a host whose only visible process is pid 42 ("srv") with a
single LISTEN socket. -/
def osOneListen : ScanOracles :=
  { getName := fun pid => if pid = 42 then some "srv" else none,
    getPath := fun _ => none,
    listSockets := fun pid => if pid = 42 then some [sockListen8080] else none }

/-- Oracles where pid 7's name cannot be resolved while pid 8 resolves
fine (with no visible sockets). -/
def osNoName : ScanOracles :=
  { getName := fun pid => if pid = 8 then some "other" else none,
    getPath := fun _ => none,
    listSockets := fun _ => none }

/-- Oracles where pids 1 ("alpha") and 2 ("beta") both hold a loopback
LISTEN socket on the same port 8080. -/
def osTwoListeners : ScanOracles :=
  { getName := fun pid =>
      if pid = 1 then some "alpha" else if pid = 2 then some "beta" else none,
    getPath := fun _ => none,
    listSockets := fun _ => some [sockListen8080] }

/-- A pathological `proc_listpids` that reports a full buffer at every
capacity. -/
def alwaysFull : Nat → PidsReply :=
  fun cap => { ret := Int.ofNat cap, buffer := List.replicate cap 1 }

/-- A well-behaved `proc_listpids`: two entries, pid 0 and pid 7. -/
def osGoodPids : Nat → PidsReply :=
  fun _ => { ret := 2, buffer := [0, 7] }

/-- An all-zero `in_sockinfo` (payload placeholder). -/
def zeroInSock : in_sockinfo :=
  { insi_vflag := 1, insi_laddr_46 := 0, insi_faddr_46 := 0,
    insi_laddr_6 := [], insi_faddr_6 := [], insi_lport := 0, insi_fport := 0 }

/-- A generic-inet-kind socket entry whose protocol is ICMP (1), not UDP. -/
def icmpFdinfo : socket_fdinfo :=
  { psi := { soi_kind := 1, soi_protocol := 1,
             pri_tcp := { tcpsi_ini := zeroInSock, tcpsi_state := 0 },
             pri_in := zeroInSock } }

/-- Pointwise combination of two bucket states: used to express that the
loop's effect on an arbitrary starting state factors through its effect
on the empty state (first-occurrence-wins per bucket). -/
def mergeBS (a b : BucketState) : BucketState :=
  { has_remote_conn := a.has_remote_conn || b.has_remote_conn,
    system_proxy_conn := orO a.system_proxy_conn b.system_proxy_conn,
    local_proxy_conn := orO a.local_proxy_conn b.local_proxy_conn,
    tun_proxy_conn := orO a.tun_proxy_conn b.tun_proxy_conn }

/-! ## Lemmas: the bucketing loop computes the spec's buckets -/

theorem orO_none_left {α : Type} (b : Option α) : orO none b = b := rfl

theorem orO_none_right {α : Type} (a : Option α) : orO a none = a := by
  cases a <;> rfl

theorem orO_assoc {α : Type} (a b c : Option α) :
    orO (orO a b) c = orO a (orO b c) := by
  cases a <;> cases b <;> rfl

theorem orO_some {α : Type} (v : α) (b : Option α) : orO (some v) b = some v := rfl

theorem mergeBS_init_left (b : BucketState) : mergeBS {} b = b := by
  simp [mergeBS, orO_none_left]

theorem mergeBS_init_right (a : BucketState) : mergeBS a {} = a := by
  simp [mergeBS, orO_none_right]

theorem mergeBS_assoc (a b c : BucketState) :
    mergeBS (mergeBS a b) c = mergeBS a (mergeBS b c) := by
  simp [mergeBS, orO_assoc, Bool.or_assoc]

theorem bucketStep_merge (pp : List Nat) (st : BucketState) (s : SocketInfo) :
    bucketStep pp st s = mergeBS st (bucketStep pp {} s) := by
  unfold bucketStep
  cases h1 : sockIsListen s <;>
    cases h2 : s.remote_addr.is_unspecified <;>
      cases hL : s.remote_addr.is_loopback <;>
        cases hC : check_port_match s.remote_port pp <;>
          cases hT : is_tun_virtual_ip s.remote_addr || is_tun_virtual_ip s.local_addr <;>
            simp [mergeBS, orO_none_right, orO_none_left, h1, h2, hL, hC, hT]

theorem foldl_bucketStep_merge (pp : List Nat) (sockets : List SocketInfo) :
    ∀ st : BucketState,
      sockets.foldl (bucketStep pp) st = mergeBS st (bucketLoop pp sockets) := by
  induction sockets with
  | nil => intro st; simp [bucketLoop, mergeBS_init_right]
  | cons s rest ih =>
    intro st
    have hcons : bucketLoop pp (s :: rest)
        = mergeBS (bucketStep pp {} s) (bucketLoop pp rest) := by
      show List.foldl (bucketStep pp) (bucketStep pp {} s) rest = _
      exact ih (bucketStep pp {} s)
    rw [List.foldl_cons, ih (bucketStep pp st s), bucketStep_merge pp st s,
      mergeBS_assoc, hcons]

theorem bucketLoop_cons (pp : List Nat) (s : SocketInfo) (rest : List SocketInfo) :
    bucketLoop pp (s :: rest) = mergeBS (bucketStep pp {} s) (bucketLoop pp rest) := by
  show List.foldl (bucketStep pp) (bucketStep pp {} s) rest = _
  exact foldl_bucketStep_merge pp rest (bucketStep pp {} s)

theorem specBuckets_nil (pp : List Nat) : specBuckets pp [] = {} := by
  simp [specBuckets, survivors]

theorem specBuckets_cons (pp : List Nat) (s : SocketInfo) (rest : List SocketInfo) :
    specBuckets pp (s :: rest) = mergeBS (bucketStep pp {} s) (specBuckets pp rest) := by
  unfold specBuckets bucketStep survivors
  cases h1 : sockIsListen s <;>
    cases h2 : s.remote_addr.is_unspecified <;>
      cases hL : s.remote_addr.is_loopback <;>
        cases hC : check_port_match s.remote_port pp <;>
          cases hT1 : is_tun_virtual_ip s.remote_addr <;>
            cases hT2 : is_tun_virtual_ip s.local_addr <;>
              simp [mergeBS, orO_none_left, orO_none_right, orO_some, specPredSystem,
                specPredTun, List.filter_cons, List.any_cons, List.find?_cons,
                h1, h2, hL, hC, hT1, hT2, connOf]

/-- The code's scanning loop computes exactly the spec's buckets. -/
theorem bucketLoop_eq_specBuckets (pp : List Nat) (sockets : List SocketInfo) :
    bucketLoop pp sockets = specBuckets pp sockets := by
  induction sockets with
  | nil => rw [specBuckets_nil]; rfl
  | cons s rest ih => rw [bucketLoop_cons, specBuckets_cons, ih]

/-- The mode and endpoint label returned by `determine_proxy_mode` factor
through the spec's resolution priority applied to the spec's buckets. -/
theorem determine_mode_eq_resolution (ctx : ScanContext) (ext : Externals)
    (cache : Cache) (sockets : List SocketInfo) :
    ((determine_proxy_mode ctx ext cache sockets).1.mode
      = resolutionMode (specResolve ctx.is_vpn (specBuckets (proxyPortsOf ctx) sockets)))
    ∧ ((determine_proxy_mode ctx ext cache sockets).1.proxy
      = resolutionProxyLabel ctx (specResolve ctx.is_vpn (specBuckets (proxyPortsOf ctx) sockets))) := by
  simp only [determine_proxy_mode, bucketLoop_eq_specBuckets]
  rcases hs : (specBuckets (proxyPortsOf ctx) sockets).system_proxy_conn with _ | ⟨ip, port⟩ <;>
    rcases ht : (specBuckets (proxyPortsOf ctx) sockets).tun_proxy_conn with _ | ⟨tip, tport⟩ <;>
      rcases hl : (specBuckets (proxyPortsOf ctx) sockets).local_proxy_conn with _ | ⟨lip, lport⟩ <;>
        cases hv : ctx.is_vpn && (specBuckets (proxyPortsOf ctx) sockets).has_remote_conn <;>
          simp [specResolve, resolutionMode, resolutionProxyLabel, hs, ht, hl, hv]

/-! ## Lemmas: cache resolution -/

theorem cacheGet_insert_self (k : String) (v : Option IpAddr) (c : Cache) :
    cacheGet k (cacheInsert k v c) = some v := by
  simp [cacheInsert, cacheGet]

/-! ## Lemmas: list_all_pids loop -/

theorem listAllPidsLoop_alwaysFull (fuel : Nat) :
    ∀ cap, listAllPidsLoop alwaysFull fuel cap = none := by
  induction fuel with
  | zero => intro cap; rfl
  | succ n ih =>
    intro cap
    simp [listAllPidsLoop, alwaysFull, ih]

theorem listAllPidsLoop_error_neg (fuel : Nat) :
    ∀ (os : Nat → PidsReply) (cap : Nat) (ret : Int),
      listAllPidsLoop os fuel cap = some (.error ret) → ret < 0 := by
  induction fuel with
  | zero => intro os cap ret h; simp [listAllPidsLoop] at h
  | succ n ih =>
    intro os cap ret h
    unfold listAllPidsLoop at h
    by_cases hneg : (os cap).ret < 0
    · simp [hneg] at h
      exact h ▸ hneg
    · by_cases hle : cap ≤ (os cap).ret.toNat
      · simp [hneg, hle] at h
        exact ih os (cap * 2) ret h
      · simp [hneg, hle] at h

theorem listAllPidsLoop_ok_pos (fuel : Nat) :
    ∀ (os : Nat → PidsReply) (cap : Nat) (pids : List Int),
      listAllPidsLoop os fuel cap = some (.ok pids) → ∀ p ∈ pids, 0 < p := by
  induction fuel with
  | zero => intro os cap pids h; simp [listAllPidsLoop] at h
  | succ n ih =>
    intro os cap pids h
    unfold listAllPidsLoop at h
    by_cases hneg : (os cap).ret < 0
    · simp [hneg] at h
    · by_cases hle : cap ≤ (os cap).ret.toNat
      · simp [hneg, hle] at h
        exact ih os (cap * 2) pids h
      · simp [hneg, hle] at h
        intro p hp
        rw [← h] at hp
        simp [List.mem_filter] at hp
        exact hp.2

/-! ## Claim C5: list_all_pids retry behaviour -/

/-- C5 (counterexample): the claim says the doubling retry loop is capped
by an explicit bounded maximum number of retries and hence terminates even
if the OS reports a full buffer on every attempt; against the
always-full oracle the loop is still running after a million iterations —
there is no retry bound in the code. -/
theorem C5_counterexample_unbounded_retry :
    list_all_pids alwaysFull 1000000 = none :=
  listAllPidsLoop_alwaysFull 1000000 INITIAL_PID_COUNT

/-- C5 (amended): `list_all_pids` retries with a doubled buffer whenever
the returned count fills the current capacity, with NO maximum retry
count — under an OS that always reports a full buffer it never terminates
(the fuelled loop yields no result at every fuel); it fails only on a
negative OS return, and every pid it returns is positive (pid 0 filtered
out). -/
theorem C5_list_all_pids_behavior :
    (∀ fuel cap, listAllPidsLoop alwaysFull fuel cap = none)
    ∧ (∀ (os : Nat → PidsReply) (fuel : Nat) (ret : Int),
        list_all_pids os fuel = some (.error ret) → ret < 0)
    ∧ (∀ (os : Nat → PidsReply) (fuel : Nat) (pids : List Int),
        list_all_pids os fuel = some (.ok pids) → ∀ p ∈ pids, 0 < p) :=
  ⟨fun fuel cap => listAllPidsLoop_alwaysFull fuel cap,
   fun os fuel ret h => listAllPidsLoop_error_neg fuel os INITIAL_PID_COUNT ret h,
   fun os fuel pids h => listAllPidsLoop_ok_pos fuel os INITIAL_PID_COUNT pids h⟩

/-- C5 (witness): a well-behaved oracle returning the two entries
`[0, 7]` yields exactly `[7]`, and the amended theorem certifies its
positivity. -/
theorem C5_witness :
    list_all_pids osGoodPids 5 = some (.ok [7]) ∧ (0 : Int) < 7 :=
  ⟨rfl, C5_list_all_pids_behavior.2.2 osGoodPids 5 [7] rfl 7 (by decide)⟩

/-! ## Claim C6: exit-IP cache write-once semantics -/

/-- C6: a probe performed for an endpoint key writes its result to the
cache under that key regardless of outcome (a failed probe is stored as
`none`), a hit returns the stored value with the cache untouched, and any
later resolution for that key after a write returns the stored value with
no further probe — the outcome no longer depends on the probe function at
all. -/
theorem C6_exit_ip_cache_write_once :
    (∀ (probe : IpAddr → Nat → Option IpAddr) (cache : Cache) (ip : IpAddr)
        (port : Nat) (v : Option IpAddr),
        cacheGet (endpointString ip port) cache = some v →
        resolveExitIpCached probe cache ip port = (v, cache))
    ∧ (∀ (probe : IpAddr → Nat → Option IpAddr) (cache : Cache) (ip : IpAddr)
        (port : Nat),
        cacheGet (endpointString ip port) cache = none →
        resolveExitIpCached probe cache ip port
          = (probe ip port, cacheInsert (endpointString ip port) (probe ip port) cache))
    ∧ (∀ (probe probe' : IpAddr → Nat → Option IpAddr) (cache : Cache)
        (ip : IpAddr) (port : Nat),
        resolveExitIpCached probe' (resolveExitIpCached probe cache ip port).2 ip port
          = resolveExitIpCached probe cache ip port) := by
  refine ⟨?_, ?_, ?_⟩
  · intro probe cache ip port v h
    simp [resolveExitIpCached, h]
  · intro probe cache ip port h
    simp [resolveExitIpCached, h]
  · intro probe probe' cache ip port
    rcases h : cacheGet (endpointString ip port) cache with _ | v
    · simp [resolveExitIpCached, h, cacheGet_insert_self]
    · simp [resolveExitIpCached, h]

/-- C6 (witness): a failing probe on an empty cache is stored as an
absent exit IP under the endpoint key. -/
theorem C6_witness :
    resolveExitIpCached (fun _ _ => none) [] (.v4 127 0 0 1) 7890
      = (none, [("127.0.0.1:7890", none)]) :=
  C6_exit_ip_cache_write_once.2.1 (fun _ _ => none) [] (.v4 127 0 0 1) 7890 rfl

/-! ## Claim C8: the two independent byte-order rules -/

/-- C8: address bytes are kept in the OS's native in-memory order — on a
host of either endianness, the `s_addr` value read from the in-memory
bytes `b0.b1.b2.b3` decodes back to the address `b0.b1.b2.b3`, never a
byte-reversed value — while 16-bit ports are converted from network byte
order to host order (`from_be` of the natively-read network-order field
yields the big-endian numeric value); in particular native-order bytes of
127.0.0.1 decode to 127.0.0.1 and a network-order 7890 decodes to 7890 in
a full `parse_in_sockinfo` run on either endianness. -/
theorem C8_byte_order_rules :
    (∀ (le : Bool) (b0 b1 b2 b3 : Nat),
        b0 < 256 → b1 < 256 → b2 < 256 → b3 < 256 →
        ipv4_to_addr le (u32OfNeBytes le b0 b1 b2 b3) = IpAddr.v4 b0 b1 b2 b3)
    ∧ (∀ (le : Bool) (hi lo : Nat), hi < 256 → lo < 256 →
        fromBe16 le (u16OfNeBytes le hi lo) = 256 * hi + lo)
    ∧ (∀ le : Bool,
        parse_in_sockinfo le
          { insi_vflag := 1,
            insi_laddr_46 := u32OfNeBytes le 127 0 0 1,
            insi_faddr_46 := u32OfNeBytes le 10 0 0 2,
            insi_laddr_6 := [], insi_faddr_6 := [],
            insi_lport := u16OfNeBytes le 30 210,
            insi_fport := u16OfNeBytes le 30 210 }
          = some (IpAddr.v4 127 0 0 1, 7890, IpAddr.v4 10 0 0 2, 7890)) := by
  refine ⟨?_, ?_, ?_⟩
  · intro le b0 b1 b2 b3 h0 h1 h2 h3
    cases le <;>
      · simp [ipv4_to_addr, u32OfNeBytes, u32ToNeBytes]
        refine ⟨?_, ?_, ?_, ?_⟩ <;> omega
  · intro le hi lo hhi hlo
    cases le <;> simp [fromBe16, u16OfNeBytes, swapBytes16] <;> omega
  · intro le
    cases le <;> rfl

/-- C8 (witness): the 127.0.0.1 regression and the 7890 port conversion on
a little-endian host. -/
theorem C8_witness :
    ipv4_to_addr true (u32OfNeBytes true 127 0 0 1) = IpAddr.v4 127 0 0 1
    ∧ fromBe16 true (u16OfNeBytes true 30 210) = 7890 :=
  ⟨C8_byte_order_rules.1 true 127 0 0 1 (by decide) (by decide) (by decide) (by decide),
   C8_byte_order_rules.2.1 true 30 210 (by decide) (by decide)⟩

/-! ## Claim C10: only TCP/UDP records are ever emitted -/

/-- C10: every record emitted by `parse_socket_info` carries protocol TCP
or UDP; a generic-inet-kind entry whose protocol is not UDP (e.g. a raw or
ICMP socket) produces no record at all, and so does any unknown kind
discriminant. -/
theorem C10_socket_protocol_invariant :
    (∀ (le : Bool) (si : socket_fdinfo) (s : SocketInfo),
        parse_socket_info le si = some s →
        s.protocol = SocketProtocol.tcp ∨ s.protocol = SocketProtocol.udp)
    ∧ (∀ (le : Bool) (si : socket_fdinfo),
        si.psi.soi_kind = SOCKINFO_IN → si.psi.soi_protocol ≠ IPPROTO_UDP →
        parse_socket_info le si = none)
    ∧ (∀ (le : Bool) (si : socket_fdinfo),
        si.psi.soi_kind ≠ SOCKINFO_TCP → si.psi.soi_kind ≠ SOCKINFO_IN →
        parse_socket_info le si = none) := by
  refine ⟨?_, ?_, ?_⟩
  · intro le si s _
    cases hp : s.protocol
    · exact Or.inl rfl
    · exact Or.inr rfl
  · intro le si hk hp
    simp [parse_socket_info, hk, hp, SOCKINFO_IN, SOCKINFO_TCP]
  · intro le si h1 h2
    simp [parse_socket_info, h1, h2]

/-- C10 (witness): an inet-kind entry whose protocol is ICMP (1) yields no
record. -/
theorem C10_witness : parse_socket_info true icmpFdinfo = none :=
  C10_socket_protocol_invariant.2.1 true icmpFdinfo rfl (by decide)

/-! ## Claim C4: probing is gated on the listen-port lookup -/

/-- C4 (counterexample): probing is enabled, a system-proxy endpoint was
identified, and the cache even holds an exit IP for that endpoint key —
yet because the ListenPortMap has no entry for the matched port, the
result carries no detail and no country/exit-ip label and the cache is
not even consulted: the lookup's absence suppresses the whole exit-IP
resolution, contradicting the claim. -/
theorem C4_counterexample_probe_suppressed :
    determine_proxy_mode ctxProbeNoListen extNoop cachePreloaded [sockSysConn]
      = ({ mode := .systemProxy, proxy := some "127.0.0.1:7890",
           detail := none, country := none }, cachePreloaded) := by
  rfl

/-- C4 (amended): for the system-proxy and local-proxy buckets the
exit-IP resolution (cache check, then probe on miss) and the
country/exit-ip label are performed only when the ListenPortMap lookup on
the matched port succeeds; on a lookup miss the result keeps the mode and
endpoint label but carries no detail and no country, and the cache is
untouched. -/
theorem C4_probe_gated_on_listen_lookup :
    ∀ (ctx : ScanContext) (ext : Externals) (cache : Cache)
      (sockets : List SocketInfo) (ip : IpAddr) (port : Nat),
      ((specBuckets (proxyPortsOf ctx) sockets).system_proxy_conn = some (ip, port) →
        (ctx.listen_ports port = none →
          determine_proxy_mode ctx ext cache sockets
            = ({ mode := .systemProxy, proxy := some (endpointString ip port),
                 detail := none, country := none }, cache))
        ∧ (∀ (ppid : Int) (pname : String),
            ctx.listen_ports port = some (ppid, pname) → ctx.probe_exit = true →
            determine_proxy_mode ctx ext cache sockets
              = ({ mode := .systemProxy, proxy := some (endpointString ip port),
                   detail := some (detailString ppid pname),
                   country := countryFor ctx.geo_db
                     (resolveExitIpCached ext.probe cache ip port).1 },
                 (resolveExitIpCached ext.probe cache ip port).2)))
      ∧ ((specBuckets (proxyPortsOf ctx) sockets).system_proxy_conn = none →
         (specBuckets (proxyPortsOf ctx) sockets).tun_proxy_conn = none →
         (specBuckets (proxyPortsOf ctx) sockets).local_proxy_conn = some (ip, port) →
        (ctx.listen_ports port = none →
          determine_proxy_mode ctx ext cache sockets
            = ({ mode := .localProxy, proxy := some (endpointString ip port),
                 detail := none, country := none }, cache))
        ∧ (∀ (ppid : Int) (pname : String),
            ctx.listen_ports port = some (ppid, pname) → ctx.probe_exit = true →
            determine_proxy_mode ctx ext cache sockets
              = ({ mode := .localProxy, proxy := some (endpointString ip port),
                   detail := some (detailString ppid pname),
                   country := countryFor ctx.geo_db
                     (resolveExitIpCached ext.probe cache ip port).1 },
                 (resolveExitIpCached ext.probe cache ip port).2))) := by
  intro ctx ext cache sockets ip port
  constructor
  · intro hs
    constructor
    · intro hlp
      simp [determine_proxy_mode, bucketLoop_eq_specBuckets, hs, hlp]
    · intro ppid pname hlp hpe
      simp [determine_proxy_mode, bucketLoop_eq_specBuckets, hs, hlp, hpe]
  · intro hs ht hl
    constructor
    · intro hlp
      simp [determine_proxy_mode, bucketLoop_eq_specBuckets, hs, ht, hl, hlp]
    · intro ppid pname hlp hpe
      simp [determine_proxy_mode, bucketLoop_eq_specBuckets, hs, ht, hl, hlp, hpe]

/-- C4 (witness): with probing enabled and the listen map attributing port
7890 to (50, "clash"), the classification carries the detail, probes (the
failing probe is recorded as an absent exit IP in the cache) and yields no
country label. -/
theorem C4_witness :
    determine_proxy_mode ctxProbeListen extNoop [] [sockSysConn]
      = ({ mode := .systemProxy, proxy := some "127.0.0.1:7890",
           detail := some "proxy_pid=50 proxy_name=\"clash\"", country := none },
         [("127.0.0.1:7890", none)]) :=
  ((C4_probe_gated_on_listen_lookup ctxProbeListen extNoop [] [sockSysConn]
      (.v4 127 0 0 1) 7890).1 (by rfl)).2 50 "clash" (by rfl) rfl

/-! ## Claim C1: single-pass bucketing and resolution priority -/

/-- C1: the classifier's single pass over the connection list skips
LISTEN-state and unspecified-remote connections and buckets each survivor
first-match-wins (system-proxy, then TUN range, then other loopback
remote, else the has-remote flag), keeping only the first occurrence per
bucket (`bucketLoop = specBuckets`); the returned mode and endpoint label
factor through the spec's resolution priority system-proxy bucket > tun
bucket > local-proxy bucket > VpnLikely (VPN-style route and has-remote) >
Direct; and a process with one system-proxy-matching connection and one
TUN-range connection is classified SystemProxy. -/
theorem C1_single_pass_bucketing_and_priority :
    (∀ (proxy_ports : List Nat) (sockets : List SocketInfo),
        bucketLoop proxy_ports sockets = specBuckets proxy_ports sockets)
    ∧ (∀ (ctx : ScanContext) (ext : Externals) (cache : Cache)
          (sockets : List SocketInfo),
        ((determine_proxy_mode ctx ext cache sockets).1.mode
          = resolutionMode
              (specResolve ctx.is_vpn (specBuckets (proxyPortsOf ctx) sockets)))
        ∧ ((determine_proxy_mode ctx ext cache sockets).1.proxy
          = resolutionProxyLabel ctx
              (specResolve ctx.is_vpn (specBuckets (proxyPortsOf ctx) sockets))))
    ∧ (determine_proxy_mode ctxBase extNoop [] [sockSysConn, sockTunConn]).1.mode
        = ProxyMode.systemProxy :=
  ⟨bucketLoop_eq_specBuckets,
   fun ctx ext cache sockets => determine_mode_eq_resolution ctx ext cache sockets,
   rfl⟩

/-! ## Claim C2: the ProxyMode variants -/

/-- C2 (counterexample): the claim asserts a fifth, distinct `TunLike`
variant strictly between SystemProxy and LocalProxy; in the code a
process whose winning bucket is the tun bucket is reported with mode
`VpnLikely` (tagged only by the `TUN:` endpoint label), so the tun mode is
not distinct from VpnLikely. -/
theorem C2_counterexample_no_tunlike :
    (determine_proxy_mode ctxBase extNoop [] [sockTunConn]).1.mode
      = ProxyMode.vpnLikely
    ∧ (determine_proxy_mode ctxBase extNoop [] [sockTunConn]).1.proxy
      = some "TUN:198.18.0.5:443" := by
  exact ⟨rfl, rfl⟩

/-- C2 (amended): `ProxyMode` has exactly the four variants SystemProxy,
LocalProxy, VpnLikely and Direct — there is no `TunLike` variant; a
process whose winning bucket is the tun bucket receives `VpnLikely`,
distinguished only by its `TUN:`-prefixed endpoint label and the
`tun_mode=true` detail (the tun bucket still resolves ahead of the
local-proxy bucket, per C1). -/
theorem C2_proxymode_four_variants :
    (∀ m : ProxyMode,
        m = .systemProxy ∨ m = .localProxy ∨ m = .vpnLikely ∨ m = .direct)
    ∧ (∀ (ctx : ScanContext) (ext : Externals) (cache : Cache)
          (sockets : List SocketInfo) (ip : IpAddr) (port : Nat),
        (specBuckets (proxyPortsOf ctx) sockets).system_proxy_conn = none →
        (specBuckets (proxyPortsOf ctx) sockets).tun_proxy_conn = some (ip, port) →
        (determine_proxy_mode ctx ext cache sockets).1.mode = ProxyMode.vpnLikely
        ∧ (determine_proxy_mode ctx ext cache sockets).1.proxy
            = some ("TUN:" ++ endpointString ip port)
        ∧ (determine_proxy_mode ctx ext cache sockets).1.detail
            = some "tun_mode=true") := by
  constructor
  · intro m
    cases m
    · exact Or.inl rfl
    · exact Or.inr (Or.inl rfl)
    · exact Or.inr (Or.inr (Or.inl rfl))
    · exact Or.inr (Or.inr (Or.inr rfl))
  · intro ctx ext cache sockets ip port hs ht
    simp [determine_proxy_mode, bucketLoop_eq_specBuckets, hs, ht]

/-- C2 (witness): the tun-bucket outcome at a concrete TUN-range
connection. -/
theorem C2_witness :
    (determine_proxy_mode ctxBase extNoop [] [sockTunConn]).1.detail
      = some "tun_mode=true" :=
  (C2_proxymode_four_variants.2 ctxBase extNoop [] [sockTunConn]
      (.v4 198 18 0 5) 443 (by rfl) (by rfl)).2.2

/-! ## Lemmas: the scan orchestrator -/

theorem mem_insertByPid (x r : ProcessResult) (l : List ProcessResult) :
    x ∈ insertByPid r l ↔ x = r ∨ x ∈ l := by
  induction l with
  | nil => simp [insertByPid]
  | cons h t ih =>
    by_cases hle : h.pid ≤ r.pid
    · simp only [insertByPid, if_pos hle, List.mem_cons, ih]
      tauto
    · simp only [insertByPid, if_neg hle, List.mem_cons]

theorem mem_sortByPid (x : ProcessResult) (l : List ProcessResult) :
    x ∈ sortByPid l ↔ x ∈ l := by
  induction l with
  | nil => simp [sortByPid]
  | cons h t ih =>
    show x ∈ insertByPid h (sortByPid t) ↔ _
    rw [mem_insertByPid]
    simp only [ih, List.mem_cons]

theorem scanProcess_noName (ctx : ScanContext) (ext : Externals) (os : ScanOracles)
    (cache : Cache) (p : Int) (h : os.getName p = none) :
    scanProcess ctx ext os cache p = (none, cache) := by
  simp [scanProcess, h]

theorem scanProcess_pid_eq (ctx : ScanContext) (ext : Externals) (os : ScanOracles)
    (cache : Cache) (p : Int) (r : ProcessResult)
    (h : (scanProcess ctx ext os cache p).1 = some r) : r.pid = p := by
  unfold scanProcess at h
  by_cases ht : (match ctx.target_pid with
    | some target => p != target | none => false) = true
  · simp [ht] at h
  · rcases hgn : os.getName p with _ | name
    · simp [ht, hgn] at h
    · by_cases hempty : ((os.listSockets p).getD []).isEmpty = true
      · by_cases hor : ctx.only_routed = true
        · simp [ht, hgn, hempty, hor] at h
        · simp [ht, hgn, hempty, hor] at h
          rw [← h]
      · by_cases hor : ctx.only_routed = true
        · by_cases hmode :
            (determine_proxy_mode ctx ext cache
              ((os.listSockets p).getD [])).1.mode = ProxyMode.direct
          · simp [ht, hgn, hempty, hor, hmode] at h
          · simp [ht, hgn, hempty, hor, hmode] at h
            rw [← h]
        · simp [ht, hgn, hempty, hor] at h
          rw [← h]

theorem bucketLoop_all_skipped (pp : List Nat) (sockets : List SocketInfo)
    (h : ∀ s ∈ sockets, sockIsListen s = true ∨ s.remote_addr.is_unspecified = true) :
    bucketLoop pp sockets = {} := by
  induction sockets with
  | nil => rfl
  | cons s rest ih =>
    rw [bucketLoop_cons]
    have hstep : bucketStep pp {} s = {} := by
      rcases h s (by simp) with hskip | hskip <;> simp [bucketStep, hskip]
    rw [hstep, mergeBS_init_left]
    exact ih (fun s hs => h s (by simp [hs]))

theorem determine_all_skipped (ctx : ScanContext) (ext : Externals) (cache : Cache)
    (sockets : List SocketInfo)
    (h : ∀ s ∈ sockets, sockIsListen s = true ∨ s.remote_addr.is_unspecified = true) :
    determine_proxy_mode ctx ext cache sockets
      = ({ mode := .direct, proxy := none, detail := none, country := none }, cache) := by
  have hb := bucketLoop_all_skipped (proxyPortsOf ctx) sockets h
  simp [determine_proxy_mode, hb]

theorem scanProcess_listen_only (ctx : ScanContext) (ext : Externals)
    (os : ScanOracles) (cache : Cache) (p : Int) (name : String)
    (sockets : List SocketInfo)
    (hname : os.getName p = some name)
    (hsock : os.listSockets p = some sockets)
    (hne : sockets ≠ [])
    (hskip : ∀ s ∈ sockets, sockIsListen s = true ∨ s.remote_addr.is_unspecified = true)
    (htarget : ctx.target_pid = none) :
    (ctx.only_routed = false →
      scanProcess ctx ext os cache p
        = (some { pid := p, name := name, path := os.getPath p, mode := .direct,
                  proxy := none, country := none, detail := none,
                  conns_count := sockets.length }, cache))
    ∧ (ctx.only_routed = true →
      scanProcess ctx ext os cache p = (none, cache)) := by
  have hdet := determine_all_skipped ctx ext cache sockets hskip
  constructor <;> intro hor <;>
    simp [scanProcess, hname, hsock, htarget, hor, hdet, hne]

theorem scanStep_none (ctx : ScanContext) (ext : Externals) (os : ScanOracles)
    (acc : List ProcessResult × Cache) (q : Int)
    (h : (scanProcess ctx ext os acc.2 q).1 = none) :
    scanStep ctx ext os acc q = (acc.1, (scanProcess ctx ext os acc.2 q).2) := by
  simp [scanStep, h]

theorem scanStep_some (ctx : ScanContext) (ext : Externals) (os : ScanOracles)
    (acc : List ProcessResult × Cache) (q : Int) (r : ProcessResult)
    (h : (scanProcess ctx ext os acc.2 q).1 = some r) :
    scanStep ctx ext os acc q = (acc.1 ++ [r], (scanProcess ctx ext os acc.2 q).2) := by
  simp [scanStep, h]

theorem foldl_scanStep_prefix (ctx : ScanContext) (ext : Externals)
    (os : ScanOracles) (pids : List Int) :
    ∀ (acc : List ProcessResult × Cache) (x : ProcessResult),
      x ∈ acc.1 → x ∈ (pids.foldl (scanStep ctx ext os) acc).1 := by
  induction pids with
  | nil => intro acc x hx; exact hx
  | cons q rest ih =>
    intro acc x hx
    rw [List.foldl_cons]
    refine ih (scanStep ctx ext os acc q) x ?_
    rcases hrc : (scanProcess ctx ext os acc.2 q).1 with _ | r
    · rw [scanStep_none ctx ext os acc q hrc]
      exact hx
    · rw [scanStep_some ctx ext os acc q r hrc]
      simp [hx]

theorem foldl_scanStep_mem (ctx : ScanContext) (ext : Externals)
    (os : ScanOracles) (pids : List Int) (p : Int) (r : ProcessResult)
    (hall : ∀ cache : Cache, (scanProcess ctx ext os cache p).1 = some r) :
    ∀ acc : List ProcessResult × Cache,
      p ∈ pids → r ∈ (pids.foldl (scanStep ctx ext os) acc).1 := by
  induction pids with
  | nil => intro acc hp; simp at hp
  | cons q rest ih =>
    intro acc hp
    rw [List.foldl_cons]
    rcases List.mem_cons.mp hp with hq | hrest
    · subst hq
      refine foldl_scanStep_prefix ctx ext os rest (scanStep ctx ext os acc p) r ?_
      rw [scanStep_some ctx ext os acc p r (hall acc.2)]
      simp
    · exact ih (scanStep ctx ext os acc q) hrest

theorem foldl_scanStep_mem_inv (ctx : ScanContext) (ext : Externals)
    (os : ScanOracles) (pids : List Int) :
    ∀ (acc : List ProcessResult × Cache) (x : ProcessResult),
      x ∈ (pids.foldl (scanStep ctx ext os) acc).1 →
      x ∈ acc.1 ∨ ∃ q ∈ pids, ∃ cache : Cache,
        (scanProcess ctx ext os cache q).1 = some x := by
  induction pids with
  | nil => intro acc x hx; exact Or.inl hx
  | cons q rest ih =>
    intro acc x hx
    rw [List.foldl_cons] at hx
    rcases ih (scanStep ctx ext os acc q) x hx with hacc | ⟨q', hq', cache, hsc⟩
    · rcases hrc : (scanProcess ctx ext os acc.2 q).1 with _ | r
      · rw [scanStep_none ctx ext os acc q hrc] at hacc
        exact Or.inl hacc
      · rw [scanStep_some ctx ext os acc q r hrc] at hacc
        simp at hacc
        rcases hacc with hacc | hxr
        · exact Or.inl hacc
        · exact Or.inr ⟨q, by simp, acc.2, by rw [hrc, hxr]⟩
    · exact Or.inr ⟨q', by simp [hq'], cache, hsc⟩

theorem foldl_scanStep_filtered (ctx : ScanContext) (ext : Externals)
    (os : ScanOracles) (p : Int) (hnone : os.getName p = none) (pids : List Int) :
    ∀ acc : List ProcessResult × Cache,
      pids.foldl (scanStep ctx ext os) acc
        = (pids.filter (fun q => q != p)).foldl (scanStep ctx ext os) acc := by
  induction pids with
  | nil => intro acc; rfl
  | cons q rest ih =>
    intro acc
    by_cases hq : q = p
    · subst hq
      have hsp := scanProcess_noName ctx ext os acc.2 q hnone
      have hstep : scanStep ctx ext os acc q = acc := by
        rw [scanStep_none ctx ext os acc q (by rw [hsp]), hsp]
      simp only [List.foldl_cons, List.filter_cons, bne_self_eq_false,
        Bool.false_eq_true, if_false, hstep]
      exact ih acc
    · have hkeep : (q != p) = true := by simp [hq]
      simp only [List.foldl_cons, List.filter_cons, hkeep, if_true]
      exact ih (scanStep ctx ext os acc q)

/-! ## Claim C3: a process with only a LISTEN socket -/

/-- C3 (counterexample): the claim says the emitted result has
`conns_count` 0; in the code the LISTEN socket is still counted
(`conns_count = sockets.len()`), so a process whose only socket is a
loopback LISTEN socket is reported Direct with `conns_count` 1. -/
theorem C3_counterexample_conns_count :
    scan_all_processes ctxBase extNoop osOneListen [42]
      = [{ pid := 42, name := "srv", path := none, mode := .direct, proxy := none,
           country := none, detail := none, conns_count := 1 }] := by
  rfl

/-- C3 (amended): a process all of whose sockets are skipped by the
classifier (LISTEN state or unspecified remote) — e.g. a single loopback
LISTEN socket — is emitted with mode Direct and `conns_count` equal to its
socket count (1 in the scenario, not 0) when the only-routed filter is
off, and is excluded entirely when the filter is on. -/
theorem C3_listen_only_process :
    ∀ (ctx : ScanContext) (ext : Externals) (os : ScanOracles) (pids : List Int)
      (p : Int) (name : String) (sockets : List SocketInfo),
      os.getName p = some name →
      os.listSockets p = some sockets →
      sockets ≠ [] →
      (∀ s ∈ sockets, sockIsListen s = true ∨ s.remote_addr.is_unspecified = true) →
      ctx.target_pid = none →
      p ∈ pids →
      (ctx.only_routed = false →
        ({ pid := p, name := name, path := os.getPath p, mode := .direct,
           proxy := none, country := none, detail := none,
           conns_count := sockets.length } : ProcessResult)
          ∈ scan_all_processes ctx ext os pids)
      ∧ (ctx.only_routed = true →
        ∀ r ∈ scan_all_processes ctx ext os pids, r.pid ≠ p) := by
  intro ctx ext os pids p name sockets hname hsock hne hskip htarget hp
  constructor
  · intro hor
    show _ ∈ scanPass { ctx with listen_ports := build_listen_ports os pids } ext os pids
    unfold scanPass
    rw [mem_sortByPid]
    refine foldl_scanStep_mem _ ext os pids p _ ?_ ([], []) hp
    intro cache
    have hrun := (scanProcess_listen_only
      { ctx with listen_ports := build_listen_ports os pids } ext os cache p name
      sockets hname hsock hne hskip htarget).1 hor
    rw [hrun]
  · intro hor r hr
    have hr' : r ∈ scanPass { ctx with listen_ports := build_listen_ports os pids }
        ext os pids := hr
    unfold scanPass at hr'
    rw [mem_sortByPid] at hr'
    rcases foldl_scanStep_mem_inv _ ext os pids ([], []) r hr' with habs | ⟨q, _, cache, hsc⟩
    · simp at habs
    · intro hrp
      have hqid : r.pid = q := scanProcess_pid_eq _ ext os cache q r hsc
      have hqp : q = p := by rw [← hqid, hrp]
      subst hqp
      have hnone := (scanProcess_listen_only
        { ctx with listen_ports := build_listen_ports os pids } ext os cache q name
        sockets hname hsock hne hskip htarget).2 hor
      rw [hnone] at hsc
      simp at hsc

/-- C3 (witness): the single-LISTEN-socket scenario at pid 42: present
with Direct and `conns_count` 1 when the filter is off, absent when it is
on. -/
theorem C3_witness :
    (({ pid := 42, name := "srv", path := none, mode := .direct, proxy := none,
        country := none, detail := none, conns_count := 1 } : ProcessResult)
      ∈ scan_all_processes ctxBase extNoop osOneListen [42])
    ∧ (∀ r ∈ scan_all_processes { ctxBase with only_routed := true }
          extNoop osOneListen [42], r.pid ≠ 42) :=
  ⟨(C3_listen_only_process ctxBase extNoop osOneListen [42] 42 "srv" [sockListen8080]
      rfl rfl (by decide) (by decide) rfl (by decide)).1 rfl,
   (C3_listen_only_process { ctxBase with only_routed := true } extNoop osOneListen
      [42] 42 "srv" [sockListen8080]
      rfl rfl (by decide) (by decide) rfl (by decide)).2 rfl⟩

/-! ## Claim C7: partial process identity -/

/-- C7 (counterexample): the claim says a name-resolution failure still
yields a degraded result for that process; in the code it returns `None`
from the `filter_map` closure, omitting the process entirely: scanning a
host whose only pid's name cannot be resolved yields an empty result
list. -/
theorem C7_counterexample_name_failure_omits :
    scan_all_processes ctxBase extNoop osNoName [7] = [] := by
  rfl

/-- C7 (amended): name and path are resolved independently and path may be
absent (the emitted record keeps `path = None`); a failure to resolve a
process's name causes that process to be skipped — no result is emitted
for it — and the skip affects only that process: the classification pass
over any pid list equals the pass with that pid filtered out, and the
skipped process leaves the shared cache untouched. -/
theorem C7_name_failure_skips_only_that_pid :
    ∀ (ctx : ScanContext) (ext : Externals) (os : ScanOracles) (p : Int)
      (pids : List Int),
      os.getName p = none →
      scanPass ctx ext os pids
        = scanPass ctx ext os (pids.filter (fun q => q != p))
      ∧ (∀ cache : Cache, scanProcess ctx ext os cache p = (none, cache)) := by
  intro ctx ext os p pids hnone
  constructor
  · unfold scanPass
    rw [foldl_scanStep_filtered ctx ext os p hnone pids ([], [])]
  · intro cache
    exact scanProcess_noName ctx ext os cache p hnone

/-- C7 (witness): with pid 7's name unresolvable, scanning [7, 8] equals
scanning [8]. -/
theorem C7_witness :
    scanPass ctxBase extNoop osNoName [7, 8]
      = scanPass ctxBase extNoop osNoName [8] :=
  (C7_name_failure_skips_only_that_pid ctxBase extNoop osNoName 7 [7, 8] rfl).1

/-! ## Claim C9: the listen-port map -/

theorem listenInsertOne_isSome (pid : Int) (name : String)
    (sockets : List SocketInfo) :
    ∀ (m : Nat → Option (Int × String)) (port : Nat),
      ((listenInsertOne pid name m sockets) port).isSome = true ↔
        ((m port).isSome = true ∨ ∃ s ∈ sockets,
          (sockIsListen s && s.local_addr.is_loopback) = true
          ∧ s.local_port = port) := by
  induction sockets with
  | nil => intro m port; simp [listenInsertOne]
  | cons s rest ih =>
    intro m port
    have hunf : listenInsertOne pid name m (s :: rest)
        = listenInsertOne pid name
            (if sockIsListen s && s.local_addr.is_loopback then
              mapInsert s.local_port (pid, name) m else m) rest := rfl
    rw [hunf, ih]
    by_cases hc : (sockIsListen s && s.local_addr.is_loopback) = true
    · by_cases hp : port = s.local_port
      · simp [hc, hp, mapInsert]
        exact Or.inr (Or.inl (by simpa using hc))
      · simp [hc, hp, mapInsert]
        tauto
    · have hc' : ¬(sockIsListen s = true ∧ s.local_addr.is_loopback = true) := by
        simpa [Bool.and_eq_true] using hc
      simp [hc]
      tauto

theorem foldl_listenSweepStep_isSome (os : ScanOracles) (pids : List Int) :
    ∀ (m : Nat → Option (Int × String)) (port : Nat),
      ((pids.foldl (listenSweepStep os) m) port).isSome = true ↔
        ((m port).isSome = true ∨ ∃ pid ∈ pids,
          ∃ s ∈ (os.listSockets pid).getD [],
            (sockIsListen s && s.local_addr.is_loopback) = true
            ∧ s.local_port = port) := by
  induction pids with
  | nil => intro m port; simp
  | cons q rest ih =>
    intro m port
    rw [List.foldl_cons, ih]
    have hstep : ((listenSweepStep os m q) port).isSome = true ↔
        ((m port).isSome = true ∨ ∃ s ∈ (os.listSockets q).getD [],
          (sockIsListen s && s.local_addr.is_loopback) = true
          ∧ s.local_port = port) := by
      rcases hls : os.listSockets q with _ | sockets
      · simp [listenSweepStep, hls]
      · simp only [listenSweepStep, hls]
        rw [listenInsertOne_isSome]
        simp
    rw [hstep, List.exists_mem_cons_iff, or_assoc]

/-- C9 (counterexample): with two processes both holding a loopback LISTEN
socket on port 8080, sweeping [1, 2] attributes the port to (2, "beta")
while sweeping [2, 1] attributes it to (1, "alpha") — the map's values are
last-writer-wins and thus depend on sweep order, refuting
order-independence. -/
theorem C9_counterexample_order_dependent :
    build_listen_ports osTwoListeners [1, 2] 8080
      ≠ build_listen_ports osTwoListeners [2, 1] 8080 := by
  decide

/-- C9 (amended): a sweep order determines the map's values only when
ports collide; what is order-independent is the map's domain: for every
oracle, pid list and port, the map has an entry for the port exactly when
some swept process has a loopback-bound TCP socket in LISTEN state on that
port — hence two pid lists with the same members yield entries on exactly
the same ports. -/
theorem C9_listen_map_domain :
    (∀ (os : ScanOracles) (pids : List Int) (port : Nat),
      ((build_listen_ports os pids) port).isSome = true ↔
        ∃ pid ∈ pids, ∃ s ∈ (os.listSockets pid).getD [],
          (sockIsListen s && s.local_addr.is_loopback) = true
          ∧ s.local_port = port)
    ∧ (∀ (os : ScanOracles) (pids pids' : List Int) (port : Nat),
        (∀ q : Int, q ∈ pids ↔ q ∈ pids') →
        ((build_listen_ports os pids) port).isSome
          = ((build_listen_ports os pids') port).isSome) := by
  have hchar : ∀ (os : ScanOracles) (pids : List Int) (port : Nat),
      ((build_listen_ports os pids) port).isSome = true ↔
        ∃ pid ∈ pids, ∃ s ∈ (os.listSockets pid).getD [],
          (sockIsListen s && s.local_addr.is_loopback) = true
          ∧ s.local_port = port := by
    intro os pids port
    unfold build_listen_ports
    rw [foldl_listenSweepStep_isSome]
    simp
  refine ⟨hchar, ?_⟩
  intro os pids pids' port hmem
  rw [Bool.eq_iff_iff, hchar, hchar]
  constructor
  · rintro ⟨pid, hpid, s, hs, hcond, hport⟩
    exact ⟨pid, (hmem pid).mp hpid, s, hs, hcond, hport⟩
  · rintro ⟨pid, hpid, s, hs, hcond, hport⟩
    exact ⟨pid, (hmem pid).mpr hpid, s, hs, hcond, hport⟩

/-- C9 (witness): port 8080 is in the map's domain for the [1, 2] sweep,
witnessed by pid 1's LISTEN socket. -/
theorem C9_witness :
    (build_listen_ports osTwoListeners [1, 2] 8080).isSome = true :=
  (C9_listen_map_domain.1 osTwoListeners [1, 2] 8080).mpr
    ⟨1, by decide, sockListen8080, by decide, by decide, rfl⟩

end ProxyAudit
